import Mathlib

/-!
Verification of the iterative review-and-revision controller of
`src/coder_team_1.py` against its specification.

The program drives a Plan → (Generate → Critique → Judge)* → Report loop over
an external text-generation service, a code-execution sandbox and a file
store.  Those externals are opaque collaborators: here they are modelled as
oracles (plain functions from the data the Python code passes to the call, to
the outcome the call produced — a returned text or a raised exception's
message).  Every Python function of the controller is translated one-to-one,
with its `try/except` fallbacks, string concatenations and log appends kept
exactly as written; the loop of `main` (lines 354-408) is translated as a
structurally recursive function on the number of remaining permitted
iterations (`remaining = max_review_iterations + 1 - review_count`, the exact
count of further passes of the `while review_count <= max … ` guard), so the
guard check and the loop body match the source line for line.

`reporter_function` (lines 297-348) only reads the finished log and writes
`report.txt`; it appends nothing to the conversation log and returns a string
that `main` merely prints, so it does not appear in the state model.
-/

namespace CoderTeam

/-! ## Python string primitives

`strLower` models Python's `str.lower()` (character-wise lowering; all texts
involved are ASCII, where `Char.toLower` and `str.lower` agree).  `pyIn`
models Python's `pat in s` substring test. -/

/-- Model of Python `s.lower()`: lower each character of the string. -/
def strLower (s : String) : String := ⟨s.data.map Char.toLower⟩

/-- `hasSublist pat s` : does `pat` occur as a contiguous sublist of `s`?
This is Python's `pat in s` on the character lists. -/
def hasSublist (pat : List Char) : List Char → Bool
  | [] => pat.isEmpty
  | c :: t => pat.isPrefixOf (c :: t) || hasSublist pat t

/-- Model of Python `pat in s` for strings. -/
def pyIn (pat s : String) : Bool := hasSublist pat.data s.data

/-! ## Data model (§3 of the spec) -/

/-- The dictionary returned by `coder_function` (line 148):
`\x7b"code": …, "output": …\x7d`. -/
structure CoderResult where
  code : String
  output : String
deriving DecidableEq, Repr

/-- The dictionary returned by `async_feedback_branch` (line 228): both
critique slots. -/
structure Feedback where
  negative_feedback : String
  positive_feedback : String
deriving DecidableEq, Repr

/-- The dictionary returned by `judge_function` (lines 292/294). -/
structure JudgeDecision where
  achieved : Bool
  instruction : String
deriving DecidableEq, Repr

/-! ## External-call outcomes

An LLM call either returns text (`Except.ok`) or raises, caught by the
enclosing `except Exception as e` (`Except.error` carries `str(e)`). -/

/-- Outcome of the `subprocess.run(["python", script_path], …)` call of
`coder_function` (lines 134-142): it finished with captured stdout/stderr, or
it raised (e.g. `TimeoutExpired`), caught by the inner `except`. -/
inductive RunOutcome where
  | finished (stdout stderr : String)
  | raised (msg : String)
deriving DecidableEq, Repr

/-- Combined outcome of one `coder_function` call's external steps
(lines 103-146): either some exception escaped inside the outer `try` before
the inner try blocks (the chat call or the file write: caught at line 149), or
the chat call returned `code`, the `py_compile` check raised `some e` or
passed (`none`), and the subprocess run had outcome `execRun`. -/
inductive CoderOutcome where
  | exn (msg : String)
  | gen (code : String) (syntaxCheck : Option String) (execRun : RunOutcome)
deriving DecidableEq, Repr

/-! ## The pipeline functions, translated from the source -/

/-- `manager_function` (lines 63-84): returns the outline, or the error text
built in its `except` clause. The oracle maps the request to the chat call's
outcome. -/
def manager_function (request : String) (llm : String → Except String String) :
    String :=
  match llm request with
  | .ok outline => outline
  | .error e => "An error occurred in manager_function: " ++ e

/-- `coder_function` (lines 87-150), given the outcome of its external steps:
build the combined execution output (stdout + "\n" + stderr, lines 140), fall
back to the inner error text when the run raised (line 142), and prepend the
syntax-error marker when the `py_compile` check failed (lines 126-130, 145-146). -/
def coder_function (outcome : CoderOutcome) : CoderResult :=
  match outcome with
  | .exn e => { code := "", output := "An error occurred in coder_function: " ++ e }
  | .gen code_text syntaxCheck execRun =>
    let syntax_error : String :=
      match syntaxCheck with
      | some e => "Syntax error detected: " ++ e
      | none => ""
    let execution_output : String :=
      match execRun with
      | .finished out err => out ++ "\n" ++ err
      | .raised e => "Error running code: " ++ e
    let execution_output : String :=
      if syntax_error = "" then execution_output
      else syntax_error ++ "\n" ++ execution_output
    { code := code_text, output := execution_output }

/-- `bojack_horseman_function` (lines 153-184): the critical critic; on an
exception it returns its own error text (lines 183-184). The oracle maps the
artifact the call is shown to the chat call's outcome. -/
def bojack_horseman_function (data : CoderResult)
    (llm : CoderResult → Except String String) : String :=
  match llm data with
  | .ok text => text
  | .error e => "An error occurred in bojack_horseman_function: " ++ e

/-- `mr_peanut_butter_function` (lines 187-216): the favorable critic; on an
exception it returns its own error text (lines 215-216). -/
def mr_peanut_butter_function (data : CoderResult)
    (llm : CoderResult → Except String String) : String :=
  match llm data with
  | .ok text => text
  | .error e => "An error occurred in mr_peanut_butter_function: " ++ e

/-- `async_feedback_branch` (lines 219-228): both critics run on the same
artifact and are joined by `asyncio.gather`, which waits for both futures;
each critic traps every exception internally (so neither future can reject),
and the result dictionary is built from the two completed values. -/
def async_feedback_branch (data : CoderResult)
    (bojack_llm mr_peanut_llm : CoderResult → Except String String) : Feedback :=
  { negative_feedback := bojack_horseman_function data bojack_llm,
    positive_feedback := mr_peanut_butter_function data mr_peanut_llm }

/-- Outcome of the external file-store steps of `save_feedback_function`
(lines 231-246).  The `os.makedirs` call at line 236 stands outside the
`try` that begins at line 239, so either it raised (and its exception
escapes the function) or it succeeded; once it succeeded, the two critique
file writes inside the `try` either both succeeded or one raised (caught at
line 245). -/
inductive SaveOutcome where
  | makedirsRaised (msg : String)
  | writes (write : Except String Unit)
deriving Repr

/-- `save_feedback_function` (lines 231-246).  A failure of the `makedirs`
call is not caught by anything in the function: it propagates to the caller
(`Except.error`).  After the directory step succeeded, the writes run under
the `try`: their failure is caught and converted to the error text, and the
function returns normally (`Except.ok`) with the success or error report;
`main` (line 383) discards that returned text either way — but an
`Except.error` from this step is an exception at line 383 that nothing in
`main` catches, so it aborts the run. -/
def save_feedback_function (_feedback : Feedback) (outcome : SaveOutcome) :
    Except String String :=
  match outcome with
  | .makedirsRaised e => .error e
  | .writes (.ok _) =>
    .ok "Feedback saved successfully: ./output/bojack_horseman.txt, ./output/mr_peanut_butter.txt"
  | .writes (.error e) =>
    .ok ("An error occurred while saving feedback: " ++ e)

/-! ## The judgment step -/

/-- Lines 256-269 of `judge_function`: the user prompt before the final-pass
note, including the conversation history when it is nonempty. -/
def judge_base_prompt (manager_outline : String) (coder_result : CoderResult)
    (feedback : Feedback) (conversation_history : List String) : String :=
  "Manager's Outline:\n" ++ manager_outline ++ "\n\n" ++
  "Python Code:\n" ++ coder_result.code ++ "\n\n" ++
  "Execution Output:\n" ++ coder_result.output ++ "\n\n" ++
  "Feedback from bojack_horseman (critical):\n" ++ feedback.negative_feedback ++ "\n\n" ++
  "Feedback from mr_peanut_butter (positive):\n" ++ feedback.positive_feedback ++ "\n\n" ++
  "Based on the above, determine whether the script achieves the Manager's outline. " ++
  "If a syntax or compilation error is present, prioritize this as the main issue that must be fixed immediately. " ++
  "If the script meets the outline, provide a brief summary and state that the goal has been achieved. " ++
  "If not, provide clear instructions for the coder to modify the code. " ++
  "Do not invent issues or strengths beyond what is provided." ++
  (if conversation_history.isEmpty then ""
   else "\n\nConversation History:\n" ++ String.intercalate "\n" conversation_history)

/-- The final-pass sentence appended at lines 270-274 when
`review_count >= CONFIG["max_review_iterations"]`. -/
def judge_final_note : String :=
  "\nThis is your final review. End the process by providing a final summary, " ++
  "regardless of whether the script fully meets the outline or not."

/-- The complete user prompt `judge_function` sends (lines 256-274). -/
def judge_user_prompt (manager_outline : String) (coder_result : CoderResult)
    (feedback : Feedback) (conversation_history : List String)
    (review_count max_review_iterations : Nat) : String :=
  judge_base_prompt manager_outline coder_result feedback conversation_history ++
    (if max_review_iterations ≤ review_count then judge_final_note else "")

/-- Line 291: `"achieved" in judge_response.lower() or "final summary" in
judge_response.lower()` — the satisfaction marker policy. -/
def satisfactionMarker (judge_response : String) : Bool :=
  pyIn "achieved" (strLower judge_response) ||
  pyIn "final summary" (strLower judge_response)

/-- `judge_function` (lines 249-294): build the prompt, call the judge LLM
(the oracle maps the prompt to the call's outcome), classify the returned
text with the marker policy (lines 290-292); on an exception return
`achieved = False` with the error text as the instruction (lines 293-294). -/
def judge_function (manager_outline : String) (coder_result : CoderResult)
    (feedback : Feedback) (review_count : Nat)
    (conversation_history : List String) (max_review_iterations : Nat)
    (llm : String → Except String String) : JudgeDecision :=
  let judge_prompt := judge_user_prompt manager_outline coder_result feedback
    conversation_history review_count max_review_iterations
  match llm judge_prompt with
  | .ok judge_response =>
    let achieved := satisfactionMarker judge_response
    { achieved := achieved, instruction := judge_response }
  | .error e =>
    { achieved := false, instruction := "An error occurred in judge_function: " ++ e }

/-! ## The review loop (`main`, lines 354-408) -/

/-- The behaviour of the external capabilities during one loop iteration:
the coder call's outcome as a function of the `extra_instruction` it is given
(line 369), each critic call's outcome as a function of the artifact it is
shown, the outcome of the two critique file writes inside the persist step's
`try` block, and the judge call's outcome as a function of the prompt it is
sent.  The persist step's `os.makedirs` (line 236, outside that `try`) is
not part of an iteration's behaviour: its failure is an uncaught exception
that aborts the whole run at line 383, so the loop model covers the
executions in which it succeeded, and the aborting path is settled on
`save_feedback_function` itself. -/
structure IterEnv where
  coder : String → CoderOutcome
  bojack : CoderResult → Except String String
  mr_peanut : CoderResult → Except String String
  save : Except String Unit
  judge : String → Except String String

/-- The behaviour of the external capabilities during one run: the manager
call's outcome and, for each value of `review_count` (1-based), that
iteration's `IterEnv`. -/
structure RunEnv where
  manager : String → Except String String
  iter : Nat → IterEnv

/-- What the loop produces, plus the ghost observations the spec talks about:
`bodies` counts loop-body executions (= calls to `coder_function`), `trace`
records the value of `review_count` at the start of each executed body, in
order. `last_coder` is the artifact of the last executed generation step. -/
structure LoopOut where
  log : List String
  achieved : Bool
  review_count : Nat
  bodies : Nat
  trace : List Nat
  last_coder : CoderResult
deriving DecidableEq, Repr

/-- Line 372-373's log entry. -/
def coderLogEntry (review_count : Nat) : String :=
  "**Coder to Bojack/Mr_Peanut (Iteration " ++ toString review_count ++
    ")**: Coder generated the code and execution output."

/-- Line 379-380's log entry. -/
def feedbackLogEntry (review_count : Nat) : String :=
  "**Bojack_Horseman/Mr_Peanut (Iteration " ++ toString review_count ++
    ")**: Provided critical and positive feedback on the coder's output."

/-- Line 388's log entry. -/
def judgeLogEntry (review_count : Nat) (instr : String) : String :=
  "**Judge to Coder (Iteration " ++ toString review_count ++ ")**: " ++ instr

/-- Line 360's log entry. -/
def managerLogEntry : String :=
  "**Manager to Coder**: Manager provided the detailed outline for the task."

/-- Line 394-395's terminal success log entry. -/
def successLogEntry : String :=
  "**Judge**: Declared the task completed successfully, achieving the goal set out by the Manager, and ended the pipeline."

/-- Line 403-404's bound-exhausted log entry. -/
def exhaustedLogEntry : String :=
  "**Judge**: Final review completed. Pipeline terminates without fully meeting the goal."

/-- The `while review_count <= CONFIG["max_review_iterations"] and not
achieved` loop of `main` (lines 366-399), translated as structural recursion
on `remaining`, the exact number of further `review_count <= max` checks that
can still succeed: the loop is entered with `review_count = 1` and
`remaining = max_review_iterations + 1 - review_count`, the body preserves
that equation (`remaining` and `review_count + 1`), and `remaining = 0` is
precisely the state in which the Python guard `review_count <= max` is false.
The body is lines 367-399 in program order: generate, append; critique,
append; save (result discarded, line 383 — the body covers the executions in
which the persist step's `os.makedirs` succeeded, since its failure is an
uncaught exception that aborts the whole run, see `save_feedback_function`);
judge over the log so far, append; then either the terminal success append
and break (lines 390-396) or the directive/increment else-branch
(lines 397-399). -/
def main_loop (env : Nat → IterEnv) (max_review_iterations : Nat)
    (manager_outline : String) :
    Nat → Nat → String → List String → CoderResult → LoopOut
  | 0, review_count, _extra_instruction, log, last =>
    { log := log, achieved := false, review_count := review_count,
      bodies := 0, trace := [], last_coder := last }
  | remaining + 1, review_count, extra_instruction, log, _last =>
    let e := env review_count
    let coder_result := coder_function (e.coder extra_instruction)
    let log := log ++ [coderLogEntry review_count]
    let feedback := async_feedback_branch coder_result e.bojack e.mr_peanut
    let log := log ++ [feedbackLogEntry review_count]
    let _saved := save_feedback_function feedback (SaveOutcome.writes e.save)
    let judge_decision := judge_function manager_outline coder_result feedback
      review_count log max_review_iterations e.judge
    let log := log ++ [judgeLogEntry review_count judge_decision.instruction]
    if judge_decision.achieved then
      { log := log ++ [successLogEntry], achieved := true,
        review_count := review_count, bodies := 1, trace := [review_count],
        last_coder := coder_result }
    else
      let rest := main_loop env max_review_iterations manager_outline remaining
        (review_count + 1) judge_decision.instruction log coder_result
      { rest with bodies := rest.bodies + 1, trace := review_count :: rest.trace }

/-- What a whole run of `main` (lines 354-408) leaves behind. -/
structure RunResult where
  log : List String
  achieved : Bool
  review_count : Nat
  bodies : Nat
  trace : List Nat
  final_artifact : CoderResult
deriving DecidableEq, Repr

/-- `main` (lines 354-408): manager outline, first log entry, the review loop
from `review_count = 1` with empty `extra_instruction`, and the bound-
exhausted terminal entry when the loop ended without satisfaction (lines
401-404).  The loop starts with `remaining = max_review_iterations`
(`= max + 1 - 1`).  The initial `last_coder` is a placeholder: Python's
`coder_result` is not defined before the first body, and nothing reads it
when no body ran. -/
def main_run (user_request : String) (env : RunEnv)
    (max_review_iterations : Nat) : RunResult :=
  let manager_outline := manager_function user_request env.manager
  let log := [managerLogEntry]
  let out := main_loop env.iter max_review_iterations manager_outline
    max_review_iterations 1 "" log { code := "", output := "" }
  let log := if out.achieved then out.log else out.log ++ [exhaustedLogEntry]
  { log := log, achieved := out.achieved, review_count := out.review_count,
    bodies := out.bodies, trace := out.trace, final_artifact := out.last_coder }

/-- The process entry point (lines 411-412): `asyncio.run(main())`.  `main`
returns `None`, every external failure inside the pipeline is caught and
converted to in-band text, and neither `main` nor the entry point contains
any exit-status logic (`sys.exit` is never called, the subprocess returncode
is never inspected), so a completed run makes the interpreter exit with
status 0. -/
def main_exit_code (user_request : String) (env : RunEnv)
    (max_review_iterations : Nat) : Nat :=
  let _run := main_run user_request env max_review_iterations
  0

/-! ## Concrete external behaviours, for evaluating the model -/

/-- An iteration in which every call succeeds, the generated script is valid
and silent, and the judge declares the goal achieved. -/
def okIterEnv : IterEnv :=
  { coder := fun _ => .gen "print(42)" none (.finished "" ""),
    bojack := fun _ => .ok "No significant issues found.",
    mr_peanut := fun _ => .ok "Well done.",
    save := .ok (),
    judge := fun _ => .ok "The goal has been achieved." }

/-- A run whose every iteration behaves like `okIterEnv`. -/
def okRunEnv : RunEnv :=
  { manager := fun _ => .ok "A plan.", iter := fun _ => okIterEnv }

/-- An iteration in which the generated source fails the syntax check, its
execution raises, and the judge asks for a revision (no satisfaction marker). -/
def failIterEnv : IterEnv :=
  { coder := fun _ => .gen "x = (" (some "invalid syntax") (.raised "CalledProcessError"),
    bojack := fun _ => .ok "Broken.",
    mr_peanut := fun _ => .ok "Nice try.",
    save := .ok (),
    judge := fun _ => .ok "Please fix the code." }

/-- A run whose every iteration behaves like `failIterEnv`: the bound is
exhausted and the final artifact's sandboxed execution failed. -/
def failRunEnv : RunEnv :=
  { manager := fun _ => .ok "A plan.", iter := fun _ => failIterEnv }

/-! ## Helper lemmas about the loop -/

/-- The loop executes at most `remaining` further bodies. -/
theorem main_loop_bodies_le (env : Nat → IterEnv) (m : Nat) (mo : String) :
    ∀ remaining review_count extra log last,
      (main_loop env m mo remaining review_count extra log last).bodies ≤ remaining := by
  intro remaining
  induction remaining with
  | zero => intro rc extra log last; simp [main_loop]
  | succ n ih =>
    intro rc extra log last
    simp only [main_loop]
    split
    · simp
    · simpa using ih (rc + 1) _ _ _

/-- With at least one further check allowed, the loop executes at least one body. -/
theorem main_loop_bodies_pos (env : Nat → IterEnv) (m : Nat) (mo : String)
    (n review_count : Nat) (extra : String) (log : List String) (last : CoderResult) :
    1 ≤ (main_loop env m mo (n + 1) review_count extra log last).bodies := by
  simp only [main_loop]
  split
  · simp
  · simp

/-- The judge step declares the goal achieved exactly when the judge call
returned a text and that text matches the satisfaction-marker policy. -/
theorem judge_achieved_iff (mo : String) (cr : CoderResult) (fb : Feedback)
    (rc : Nat) (hist : List String) (m : Nat) (llm : String → Except String String) :
    (judge_function mo cr fb rc hist m llm).achieved = true ↔
      ∃ t, llm (judge_user_prompt mo cr fb hist rc m) = Except.ok t ∧
        satisfactionMarker t = true := by
  unfold judge_function
  cases h : llm (judge_user_prompt mo cr fb hist rc m) <;> simp [h]

/-- The trace of `review_count` values at the executed bodies is the interval
starting at the entry value, and the final counter differs from
`entry + bodies` exactly by the missing increment of a satisfied final body. -/
theorem main_loop_counter (env : Nat → IterEnv) (m : Nat) (mo : String)
    (remaining review_count : Nat) (extra : String) (log : List String)
    (last : CoderResult) :
    (main_loop env m mo remaining review_count extra log last).trace =
      List.range' review_count
        (main_loop env m mo remaining review_count extra log last).bodies ∧
    (main_loop env m mo remaining review_count extra log last).review_count +
        (if (main_loop env m mo remaining review_count extra log last).achieved
          then 1 else 0) =
      review_count + (main_loop env m mo remaining review_count extra log last).bodies := by
  induction remaining, review_count, extra, log, last using main_loop.induct env m mo with
  | case1 rc extra log last => simp [main_loop]
  | case2 remaining rc extra log last e cr l1 fb l2 jd hach =>
    simp only [e, cr, l1, fb, l2, jd] at hach
    simp only [List.append_assoc, List.singleton_append] at hach
    simp [main_loop, hach]
  | case3 remaining rc extra log last e cr l1 fb l2 jd l3 hach ih =>
    simp only [e, cr, l1, fb, l2, jd, l3] at hach ih
    simp only [List.append_assoc, List.singleton_append] at hach ih
    simp only [Bool.not_eq_true] at hach
    simp only [main_loop, List.append_assoc, List.singleton_append, hach,
      Bool.false_eq_true, if_false]
    constructor
    · rw [ih.1, List.range'_succ]
    · have h2 := ih.2
      omega

/-- The loop is satisfied only when some executed iteration's judge call
returned a marker-matching text. -/
theorem main_loop_achieved_from_judge (env : Nat → IterEnv) (m : Nat) (mo : String)
    (remaining review_count : Nat) (extra : String) (log : List String)
    (last : CoderResult) :
    (main_loop env m mo remaining review_count extra log last).achieved = true →
    ∃ j, review_count ≤ j ∧ j < review_count + remaining ∧
      ∃ p t, (env j).judge p = Except.ok t ∧ satisfactionMarker t = true := by
  induction remaining, review_count, extra, log, last using main_loop.induct env m mo with
  | case1 rc extra log last => intro h; simp [main_loop] at h
  | case2 remaining rc extra log last e cr l1 fb l2 jd hach =>
    intro _
    simp only [e, cr, l1, fb, l2, jd] at hach
    obtain ⟨t, hp, hm⟩ := (judge_achieved_iff _ _ _ _ _ _ _).mp hach
    exact ⟨rc, Nat.le_refl rc, by omega, _, t, hp, hm⟩
  | case3 remaining rc extra log last e cr l1 fb l2 jd l3 hach ih =>
    simp only [e, cr, l1, fb, l2, jd, l3] at hach ih
    simp only [List.append_assoc, List.singleton_append] at hach ih
    simp only [Bool.not_eq_true] at hach
    simp only [main_loop, List.append_assoc, List.singleton_append, hach,
      Bool.false_eq_true, if_false]
    intro hach2
    obtain ⟨j, h1, h2, hw⟩ := ih hach2
    exact ⟨j, by omega, by omega, hw⟩

/-- The blob-store write outcome is discarded by the loop: replacing every
iteration's `save` outcome leaves the loop's result unchanged. -/
theorem main_loop_save_independent (env : Nat → IterEnv)
    (s : Nat → Except String Unit) (m : Nat) (mo : String) :
    ∀ remaining review_count extra log last,
      main_loop (fun k => { env k with save := s k }) m mo remaining review_count
          extra log last =
        main_loop env m mo remaining review_count extra log last := by
  intro remaining
  induction remaining with
  | zero => intro rc extra log last; rfl
  | succ n ih =>
    intro rc extra log last
    simp only [main_loop, ih (rc + 1)]

/-- The syntax-error marker string is never empty, so Python's
`if syntax_error:` truthiness test succeeds exactly when the check failed. -/
theorem syntax_marker_ne_empty (e : String) : "Syntax error detected: " ++ e ≠ "" := by
  intro h
  have h2 : ("Syntax error detected: " ++ e).length = (0 : Nat) := by rw [h]; rfl
  rw [String.length_append] at h2
  have h3 : ("Syntax error detected: " : String).length = 23 := rfl
  omega

/-! ## The claims -/

/-- Claim C1: for every `maxIterations ≥ 1` and every behaviour of the
external generation/execution/judgment capabilities, the review loop in
`main` executes at most `maxIterations` generation cycles (loop bodies, one
`coder_function` call each) and at least 1. -/
theorem C1_generation_cycle_bound (user_request : String) (env : RunEnv)
    (max_review_iterations : Nat) (hm : 1 ≤ max_review_iterations) :
    1 ≤ (main_run user_request env max_review_iterations).bodies ∧
    (main_run user_request env max_review_iterations).bodies ≤ max_review_iterations := by
  obtain ⟨n, rfl⟩ : ∃ k, max_review_iterations = k + 1 :=
    ⟨max_review_iterations - 1, by omega⟩
  constructor
  · simpa [main_run] using main_loop_bodies_pos env.iter (n + 1)
      (manager_function user_request env.manager) n 1 "" [managerLogEntry]
      { code := "", output := "" }
  · simpa [main_run] using main_loop_bodies_le env.iter (n + 1)
      (manager_function user_request env.manager) (n + 1) 1 "" [managerLogEntry]
      { code := "", output := "" }

/-- Witness for C1 at `maxIterations = 3` with a concrete behaviour. -/
theorem C1_generation_cycle_bound_witness :
    1 ≤ (main_run "Make a script." okRunEnv 3).bodies ∧
    (main_run "Make a script." okRunEnv 3).bodies ≤ 3 :=
  C1_generation_cycle_bound "Make a script." okRunEnv 3 (by decide)

/-- Claim C2: the judgment step declares satisfaction exactly when its LLM
call returned a text containing the marker phrases "achieved" or
"final summary" (case-insensitive), and the whole run is marked satisfied
only when some executed iteration's judge call returned such a text — no
other step ever sets it. -/
theorem C2_satisfied_iff_marker (user_request : String) (env : RunEnv) (m : Nat) :
    (∀ (mo : String) (cr : CoderResult) (fb : Feedback) (rc : Nat)
        (hist : List String) (llm : String → Except String String),
      (judge_function mo cr fb rc hist m llm).achieved = true ↔
        ∃ t, llm (judge_user_prompt mo cr fb hist rc m) = Except.ok t ∧
          satisfactionMarker t = true) ∧
    ((main_run user_request env m).achieved = true →
      ∃ j, 1 ≤ j ∧ j ≤ m ∧
        ∃ p t, (env.iter j).judge p = Except.ok t ∧ satisfactionMarker t = true) := by
  constructor
  · intro mo cr fb rc hist llm
    exact judge_achieved_iff mo cr fb rc hist m llm
  · intro h
    have h2 : (main_loop env.iter m (manager_function user_request env.manager) m 1 ""
        [managerLogEntry] { code := "", output := "" }).achieved = true := by
      simpa [main_run] using h
    obtain ⟨j, hj1, hj2, hw⟩ := main_loop_achieved_from_judge _ _ _ _ _ _ _ _ h2
    exact ⟨j, hj1, by omega, hw⟩

/-- Claim C3 (Scenario A): when the generation call succeeds with valid,
silent source and the judge returns a marker-matching text on iteration 1,
the run terminates after exactly 1 iteration with satisfaction, and the log
is exactly the five entries plan, generation, critique, judgment, terminal
success, in that order. -/
theorem C3_scenario_success_first_iteration (user_request plan code t : String)
    (env : RunEnv) (m : Nat) (hm : 1 ≤ m)
    (_hmanager : env.manager user_request = Except.ok plan)
    (hcoder : ∀ extra, (env.iter 1).coder extra =
      CoderOutcome.gen code none (RunOutcome.finished "" ""))
    (hjudge : ∀ p, (env.iter 1).judge p = Except.ok t)
    (ht : satisfactionMarker t = true) :
    (main_run user_request env m).achieved = true ∧
    (main_run user_request env m).bodies = 1 ∧
    (main_run user_request env m).log =
      [managerLogEntry, coderLogEntry 1, feedbackLogEntry 1, judgeLogEntry 1 t,
        successLogEntry] := by
  obtain ⟨n, rfl⟩ : ∃ k, m = k + 1 := ⟨m - 1, by omega⟩
  simp [main_run, main_loop, hcoder, judge_function, hjudge, ht]

/-- Witness for C3 at a concrete environment satisfying the scenario. -/
theorem C3_scenario_success_first_iteration_witness :
    (main_run "Make a script." okRunEnv 3).achieved = true ∧
    (main_run "Make a script." okRunEnv 3).bodies = 1 ∧
    (main_run "Make a script." okRunEnv 3).log =
      [managerLogEntry, coderLogEntry 1, feedbackLogEntry 1,
        judgeLogEntry 1 "The goal has been achieved.", successLogEntry] :=
  C3_scenario_success_first_iteration "Make a script." "A plan." "print(42)"
    "The goal has been achieved." okRunEnv 3 (by decide) rfl (fun _ => rfl)
    (fun _ => rfl) (by decide)

/-- Claim C4: the critique fan-out always returns both slots: the result is
the pair of the two independent critic computations, each slot is unaffected
by the other's oracle, and a failing critic call fills its own slot with its
own error-text payload while a succeeding one returns its text. -/
theorem C4_fanout_both_slots (data : CoderResult)
    (bojack_llm mr_peanut_llm : CoderResult → Except String String) (e s : String) :
    async_feedback_branch data bojack_llm mr_peanut_llm =
      { negative_feedback := bojack_horseman_function data bojack_llm,
        positive_feedback := mr_peanut_butter_function data mr_peanut_llm } ∧
    (async_feedback_branch data (fun _ => Except.error e) mr_peanut_llm).positive_feedback =
      mr_peanut_butter_function data mr_peanut_llm ∧
    (async_feedback_branch data bojack_llm (fun _ => Except.error e)).negative_feedback =
      bojack_horseman_function data bojack_llm ∧
    bojack_horseman_function data (fun _ => Except.error e) =
      "An error occurred in bojack_horseman_function: " ++ e ∧
    mr_peanut_butter_function data (fun _ => Except.error e) =
      "An error occurred in mr_peanut_butter_function: " ++ e ∧
    bojack_horseman_function data (fun _ => Except.ok s) = s ∧
    mr_peanut_butter_function data (fun _ => Except.ok s) = s :=
  ⟨rfl, rfl, rfl, rfl, rfl, rfl, rfl⟩

/-- Claim C5: when the syntax-validity check fails, the artifact's execution
output is the syntax-error marker text followed by the combined output of
the run (the concatenated stdout/stderr when the run finished, its
error-fallback text when it raised) — the marker comes before anything else;
when the check succeeds the output is the combined run output unmodified,
with no marker prepended. -/
theorem C5_syntax_marker_first (code e stdout stderr msg : String) :
    (coder_function (.gen code (some e) (.finished stdout stderr))).output =
      "Syntax error detected: " ++ e ++ "\n" ++ (stdout ++ "\n" ++ stderr) ∧
    (coder_function (.gen code (some e) (.raised msg))).output =
      "Syntax error detected: " ++ e ++ "\n" ++ ("Error running code: " ++ msg) ∧
    (coder_function (.gen code none (.finished stdout stderr))).output =
      stdout ++ "\n" ++ stderr ∧
    (coder_function (.gen code none (.raised msg))).output =
      "Error running code: " ++ msg := by
  have hne := syntax_marker_ne_empty e
  refine ⟨?_, ?_, rfl, rfl⟩ <;> simp [coder_function, hne]

/-- Claim C6, counterexample: the claim "the iteration counter increases by
exactly 1 per loop body execution" entails `final counter = 1 + bodies`
(the counter starts at 1 and `bodies` loop bodies execute).  In the concrete
run below the judge is satisfied on iteration 1: exactly one loop body
executes and the counter is still 1 afterwards (the satisfied branch breaks
before the increment at line 399), so the counter did not increase during
that body. -/
theorem C6_counterexample_no_increment_on_satisfied_body :
    (main_run "Make a script." okRunEnv 3).bodies = 1 ∧
    (main_run "Make a script." okRunEnv 3).review_count = 1 ∧
    ¬((main_run "Make a script." okRunEnv 3).review_count =
        1 + (main_run "Make a script." okRunEnv 3).bodies) := by
  refine ⟨by decide, by decide, by decide⟩

/-- Claim C6 as amended: the iteration counter never decreases; it increases
by exactly 1 per loop body execution that ends unsatisfied and is left
unchanged by the terminating satisfied body.  Formally: the counter values
at the executed bodies are exactly 1, 2, …, bodies (in order), and the final
counter is `bodies` when the run is satisfied (the last body skips the
increment) and `1 + bodies` otherwise. -/
theorem C6_amended_counter_per_body (user_request : String) (env : RunEnv) (m : Nat) :
    (main_run user_request env m).trace =
      List.range' 1 (main_run user_request env m).bodies ∧
    (main_run user_request env m).review_count +
        (if (main_run user_request env m).achieved then 1 else 0) =
      1 + (main_run user_request env m).bodies := by
  have h := main_loop_counter env.iter m (manager_function user_request env.manager)
    m 1 "" [managerLogEntry] { code := "", output := "" }
  constructor
  · simpa [main_run] using h.1
  · simpa [main_run] using h.2

/-- Claim C7: on the final permitted iteration (`max ≤ review_count`) the
controller only appends the final-pass instruction to the judgment prompt;
the satisfied outcome is still computed solely from the judge's returned
text by the marker policy, exactly as on any other iteration (the last
conjunct: the iteration number does not influence the classification of a
given returned text). -/
theorem C7_final_pass_changes_prompt_only (mo : String) (cr : CoderResult)
    (fb : Feedback) (hist : List String) (rc rc2 m : Nat)
    (llm : String → Except String String) (t : String) :
    judge_user_prompt mo cr fb hist rc m =
      judge_base_prompt mo cr fb hist ++
        (if m ≤ rc then judge_final_note else "") ∧
    ((judge_function mo cr fb rc hist m llm).achieved =
      match llm (judge_user_prompt mo cr fb hist rc m) with
      | .ok u => satisfactionMarker u
      | .error _ => false) ∧
    (judge_function mo cr fb rc hist m (fun _ => Except.ok t)).achieved =
      (judge_function mo cr fb rc2 hist m (fun _ => Except.ok t)).achieved := by
  refine ⟨rfl, ?_, rfl⟩
  cases h : llm (judge_user_prompt mo cr fb hist rc m) <;> simp [judge_function, h]

/-- Claim C8 fails on the code as a slip of the code, not of the claim: the
`os.makedirs` call at line 236 stands outside the `try` that begins at line
239, so a directory-creation failure during the persist step escapes
`save_feedback_function` as an exception (first conjunct; the last conjunct
evaluates the failing input) and, uncaught at line 383, aborts the run —
the spec's best-effort design is clearly the intent, since the `except`
clause directly below exists to swallow persistence failures and `main`
discards the returned report.  A failure of the critique file writes inside
the `try` is swallowed exactly as the claim says: it is returned as error
text (second conjunct) and replacing every iteration's write outcome leaves
the run's entire result — log, satisfaction, counters and final artifact —
unchanged (third conjunct). -/
theorem C8_makedirs_failure_escapes_persist_step :
    (∀ (fb : Feedback) (e : String),
      save_feedback_function fb (SaveOutcome.makedirsRaised e) = Except.error e) ∧
    (∀ (fb : Feedback) (e : String),
      save_feedback_function fb (SaveOutcome.writes (Except.error e)) =
        Except.ok ("An error occurred while saving feedback: " ++ e)) ∧
    (∀ (user_request : String) (env : RunEnv) (s : Nat → Except String Unit) (m : Nat),
      main_run user_request
          { manager := env.manager,
            iter := fun k => { env.iter k with save := s k } } m =
        main_run user_request env m) ∧
    save_feedback_function
        { negative_feedback := "critical feedback", positive_feedback := "positive feedback" }
        (SaveOutcome.makedirsRaised "FileExistsError: ./output") =
      Except.error "FileExistsError: ./output" := by
  refine ⟨fun fb e => rfl, fun fb e => rfl, ?_, rfl⟩
  intro user_request env s m
  simp only [main_run]
  rw [main_loop_save_independent env.iter s]

/-- Claim C9, counterexample: in this concrete run the final iteration's
artifact fails both the syntax check and the sandboxed execution (its
output records the syntax marker and the execution error), the run ends
unsatisfied, and yet the process exit status is 0 — refuting the claim that
a failing final execution yields a non-zero exit status. -/
theorem C9_counterexample_exit_zero_after_failed_execution :
    (main_run "Make a script." failRunEnv 3).achieved = false ∧
    (main_run "Make a script." failRunEnv 3).final_artifact.output =
      "Syntax error detected: invalid syntax\nError running code: CalledProcessError" ∧
    main_exit_code "Make a script." failRunEnv 3 = 0 := by
  refine ⟨by decide, by decide, rfl⟩

/-- Claim C9 as amended: the entry point's exit status is 0 for every
completed run, whatever the external behaviour and the final artifact's
execution outcome — the program contains no exit-status logic at all. -/
theorem C9_amended_exit_status_zero (user_request : String) (env : RunEnv) (m : Nat) :
    main_exit_code user_request env m = 0 := rfl

/-- Claim C10: when the judgment capability call raises, `judge_function`
returns `achieved = false` with the error description as its instruction —
whatever the exception's message text (the witness raises a message that
itself contains the marker phrase), so a failed judgment can never
terminate the loop as a success. -/
theorem C10_judge_exception_never_satisfies (mo : String) (cr : CoderResult)
    (fb : Feedback) (rc : Nat) (hist : List String) (m : Nat)
    (llm : String → Except String String) (e : String)
    (h : llm (judge_user_prompt mo cr fb hist rc m) = Except.error e) :
    judge_function mo cr fb rc hist m llm =
      { achieved := false,
        instruction := "An error occurred in judge_function: " ++ e } := by
  simp [judge_function, h]

/-- Witness for C10: the judge call raises with a message that contains the
marker phrase, and the step still returns `achieved = false`. -/
theorem C10_judge_exception_never_satisfies_witness :
    judge_function "outline" { code := "c", output := "out" }
        { negative_feedback := "n", positive_feedback := "p" } 1 [] 3
        (fun _ => Except.error "the goal has been achieved") =
      { achieved := false,
        instruction := "An error occurred in judge_function: the goal has been achieved" } :=
  C10_judge_exception_never_satisfies "outline" { code := "c", output := "out" }
    { negative_feedback := "n", positive_feedback := "p" } 1 [] 3
    (fun _ => Except.error "the goal has been achieved") "the goal has been achieved" rfl

end CoderTeam
